import Mathlib

/-!
Shallow embedding of the Compass connection-lifecycle controller and the Atlas
sign-in attempt controller, together with proofs checking the natural-language
specification against the code.

Conventions of the embedding:
* JavaScript `Date` timestamps are `Nat` (milliseconds since epoch).
* `undefined` / `null` fields are `Option`.
* JavaScript truthiness on optional objects is `Option.isSome`/`Option.isNone`;
  truthiness on numbers additionally treats `0` as false.
* The external `ConnectionString` parser is reflected by carrying the parsed
  query parameters alongside the raw string.
* `Array.prototype.sort` with a numeric comparator is a stable sort and is
  modelled with `List.insertionSort` (also stable) over the relation the
  comparator induces.
-/

namespace Compass

/-- Substring test on character lists: does `pat` start `s`? -/
def listStartsWith : List Char → List Char → Bool
  | [], _ => true
  | _ :: _, [] => false
  | a :: as, b :: bs => a == b && listStartsWith as bs

/-- Substring test on character lists: does `pat` occur inside `s`? -/
def listHasSub (pat : List Char) : List Char → Bool
  | [] => pat.isEmpty
  | c :: rest => listStartsWith pat (c :: rest) || listHasSub pat rest

/-- Substring containment on strings. -/
def strContains (s pat : String) : Bool :=
  listHasSub pat.data s.data

theorem listStartsWith_refl : ∀ l : List Char, listStartsWith l l = true := by
  intro l
  induction l with
  | nil => rfl
  | cons a as ih => simp [listStartsWith, ih]

theorem listHasSub_append (pat : List Char) :
    ∀ xs : List Char, listHasSub pat (xs ++ pat) = true := by
  intro xs
  induction xs with
  | nil =>
    cases pat with
    | nil => rfl
    | cons c cs => simp [listHasSub, listStartsWith_refl]
  | cons x xs ih => simp [listHasSub, ih]

theorem strContains_append_self (s pat : String) :
    strContains (s ++ pat) pat = true := by
  simp only [strContains, String.data_append]
  exact listHasSub_append pat.data s.data

/-! ### Connection profiles (`ConnectionInfo` from `mongodb-data-service`) -/

/-- The `favorite` payload of a saved connection: a display name plus metadata
(of which only the name matters to the excerpted logic). The sort comparator
accesses it as `favorite?.name?`, so the name itself is optional. -/
structure Favorite where
  name : Option String
  deriving DecidableEq

/-- A connection string together with its parsed query parameters, reflecting
what the external `mongodb-connection-string-url` parser exposes via
`searchParams`. -/
structure ConnStr where
  raw : String
  searchParams : List (String × String)
  deriving DecidableEq

structure ConnectionOptions where
  connectionString : ConnStr
  deriving DecidableEq

structure ConnectionInfo where
  id : String
  connectionOptions : ConnectionOptions
  favorite : Option Favorite
  lastUsed : Option Nat
  deriving DecidableEq

/-- `URLSearchParams.get`: the value of the first matching key, if any. -/
def searchParamsGet (ps : List (String × String)) (k : String) : Option String :=
  (ps.find? (fun p => p.1 == k)).map (·.2)

/-- `toUpperCase()`, character by character (the comparison target
`MONGODB-OIDC` is plain ASCII). -/
def strToUpper (s : String) : String :=
  ⟨s.data.map Char.toUpper⟩

/-- `isOIDCAuth` from the connections controller: the `authMechanism` query
parameter, upper-cased, equals `MONGODB-OIDC`. -/
def isOIDCAuth (cs : ConnStr) : Bool :=
  strToUpper ((searchParamsGet cs.searchParams "authMechanism").getD "") == "MONGODB-OIDC"

/-- Modelled from the spec: `getConnectionTitle` is imported from
`mongodb-data-service`, outside the excerpt. The spec leaves it unspecified
beyond being the human-readable display name of a profile, so it is modelled
as the favorite display name when present and the raw connection string
otherwise. -/
def getConnectionTitle (ci : ConnectionInfo) : String :=
  match ci.favorite with
  | some f => f.name.getD ci.connectionOptions.connectionString.raw
  | none => ci.connectionOptions.connectionString.raw

/-- The browser-authentication hint appended to the connecting status text for
OIDC connection attempts. -/
def oidcAuthHint : String := ". Go to the browser to complete authentication."

/-- The `connectingStatusText` built by `connect` for the `attempt-connect`
dispatch. -/
def connectingStatusTextFor (ci : ConnectionInfo) : String :=
  "Connecting to " ++ getConnectionTitle ci ++
    (if isOIDCAuth ci.connectionOptions.connectionString then oidcAuthHint else "")

/-! ### Connections reducer -/

/-- `State` of the connections controller (`useConnections`). The in-flight
`ConnectionAttempt` handle is identified by a numeric id. -/
structure CState where
  activeConnectionId : Option String
  activeConnectionInfo : ConnectionInfo
  connectingStatusText : String
  connectionAttempt : Option Nat
  connectionErrorMessage : Option String
  connections : List ConnectionInfo
  oidcDeviceAuthVerificationUrl : Option String
  oidcDeviceAuthUserCode : Option String
  deriving DecidableEq

/-- `defaultConnectionsState`, parametrised by the freshly generated
`createNewConnectionInfo()` profile (its id is a fresh uuid). -/
def defaultConnectionsState (newConnectionInfo : ConnectionInfo) : CState where
  activeConnectionId := none
  activeConnectionInfo := newConnectionInfo
  connectingStatusText := ""
  connections := []
  connectionAttempt := none
  connectionErrorMessage := none
  oidcDeviceAuthVerificationUrl := none
  oidcDeviceAuthUserCode := none

inductive CAction where
  | attemptConnect (connectionAttempt : Nat) (connectingStatusText : String)
  | oidcNotifyDeviceAuth (verificationUrl : String) (userCode : String)
  | cancelConnectionAttempt
  | connectionAttemptErrored (connectionErrorMessage : String)
  | connectionAttemptSucceeded
  | newConnection (connectionInfo : ConnectionInfo)
  | setActiveConnection (connectionInfo : ConnectionInfo)
  | setConnections (connections : List ConnectionInfo)
  | setConnectionsAndSelect (connections : List ConnectionInfo)
      (activeConnectionInfo : ConnectionInfo)
  deriving DecidableEq

/-- `connectionsReducer`, translated case by case. -/
def connectionsReducer (state : CState) (action : CAction) : CState :=
  match action with
  | .attemptConnect connectionAttempt connectingStatusText =>
    { state with
      connectionAttempt := some connectionAttempt
      connectingStatusText := connectingStatusText
      connectionErrorMessage := none
      oidcDeviceAuthVerificationUrl := none
      oidcDeviceAuthUserCode := none }
  | .cancelConnectionAttempt =>
    { state with connectionAttempt := none, connectionErrorMessage := none }
  | .connectionAttemptSucceeded =>
    { state with connectionAttempt := none, connectionErrorMessage := none }
  | .connectionAttemptErrored connectionErrorMessage =>
    { state with
      connectionAttempt := none
      connectionErrorMessage := some connectionErrorMessage }
  | .oidcNotifyDeviceAuth verificationUrl userCode =>
    { state with
      oidcDeviceAuthVerificationUrl := some verificationUrl
      oidcDeviceAuthUserCode := some userCode }
  | .setActiveConnection connectionInfo =>
    { state with
      activeConnectionId := some connectionInfo.id
      activeConnectionInfo := connectionInfo
      connectionErrorMessage := none }
  | .newConnection connectionInfo =>
    { state with
      activeConnectionId := some connectionInfo.id
      activeConnectionInfo := connectionInfo
      connectionErrorMessage := none }
  | .setConnections connections =>
    { state with connections := connections, connectionErrorMessage := none }
  | .setConnectionsAndSelect connections activeConnectionInfo =>
    { state with
      connections := connections
      activeConnectionId := some activeConnectionInfo.id
      activeConnectionInfo := activeConnectionInfo
      connectionErrorMessage := none }

/-! ### Recents list and the recents cap -/

/-- `lastUsed?.getTime() ?? 0`: a missing timestamp sorts as epoch zero. -/
def lastUsedTime (c : ConnectionInfo) : Nat :=
  c.lastUsed.getD 0

/-- Ordering induced by the recents comparator `(a, b) => bTime - aTime`:
`a` may come before `b` exactly when `b`'s timestamp is at most `a`'s. -/
def recentBefore (a b : ConnectionInfo) : Prop :=
  lastUsedTime b ≤ lastUsedTime a

instance : DecidableRel recentBefore := fun a b =>
  inferInstanceAs (Decidable (lastUsedTime b ≤ lastUsedTime a))

instance : IsTotal ConnectionInfo recentBefore :=
  ⟨fun a b => (Nat.le_total (lastUsedTime b) (lastUsedTime a)).imp id id⟩

instance : IsTrans ConnectionInfo recentBefore :=
  ⟨fun _ _ _ hab hbc => Nat.le_trans hbc hab⟩

/-- The `recentConnections` memo: non-favorite profiles, stable-sorted by
`lastUsed` descending with missing timestamps treated as epoch zero. -/
def recentConnections (connections : List ConnectionInfo) : List ConnectionInfo :=
  (connections.filter (fun c => c.favorite.isNone)).insertionSort recentBefore

def MAX_RECENT_CONNECTIONS_LENGTH : Nat := 10

/-- Calls the controller issues against the profile store. -/
inductive StorageOp where
  | save (c : ConnectionInfo)
  | delete (c : ConnectionInfo)
  deriving DecidableEq

/-- The `delete` calls among a sequence of storage operations. -/
def deletesOf (ops : List StorageOp) : List ConnectionInfo :=
  ops.filterMap (fun op =>
    match op with
    | .delete c => some c
    | .save _ => none)

/-- `onConnectSuccess`, as the sequence of storage operations it issues.
`stored` is the result of `connectionStorage.load(connectionInfo.id)`; `now`
is `new Date()`; `recents` is the memoised `recentConnections` list captured
by the callback. The `onConnected` callback and logging are effect-free here.
Note the eviction guard reads the profile as loaded (before `lastUsed` is
overwritten), and JavaScript truthiness on `favorite`/`lastUsed` is
`Option.isNone`. -/
def onConnectSuccess (stored : Option ConnectionInfo) (connectionInfo : ConnectionInfo)
    (shouldSaveConnectionInfo : Bool) (now : Nat)
    (recents : List ConnectionInfo) : List StorageOp :=
  if shouldSaveConnectionInfo = false then []
  else
    let connectionInfoToBeSaved := stored.getD connectionInfo
    let saveOp := StorageOp.save { connectionInfoToBeSaved with lastUsed := some now }
    let evict :=
      if connectionInfoToBeSaved.favorite.isNone && connectionInfoToBeSaved.lastUsed.isNone &&
          decide (MAX_RECENT_CONNECTIONS_LENGTH ≤ recents.length) then
        match recents.getLast? with
        | some oldest => [StorageOp.delete oldest]
        | none => []
      else []
    saveOp :: evict

/-! ### `saveConnectionInfo` and `duplicateConnection` -/

/-- Settlement of a JavaScript promise. -/
inductive Settled (α : Type) where
  | fulfilled (v : α)
  | rejected (e : String)
  deriving DecidableEq

/-- `saveConnectionInfo`: validates and saves, returning `true`; any failure
(malformed connection string or storage failure, here folded into `saveOk`) is
caught, surfaces a warning toast, and returns `false`. The promise therefore
always fulfills — it never rejects. -/
def saveConnectionInfo (saveOk : Bool) : Settled Bool × List String :=
  if saveOk then (.fulfilled true, []) else (.fulfilled false, ["save-connection-error"])

/-- Result of a `duplicateConnection` call: the duplicate built, the actions
dispatched, and the toast ids surfaced. -/
structure DupResult where
  duplicate : ConnectionInfo
  dispatched : List CAction
  toasts : List String
  deriving DecidableEq

/-- `duplicateConnection`: deep-copies the profile under a fresh uuid `newId`,
appends " (copy)" when `duplicate.favorite?.name` is truthy (a favorite with a
non-empty name), then runs `saveConnectionInfo(duplicate).then(select, noop)`:
the select branch runs whenever the save promise fulfills. -/
def duplicateConnection (newId : String) (connections : List ConnectionInfo)
    (connectionInfo : ConnectionInfo) (saveOk : Bool) : DupResult :=
  let base := { connectionInfo with id := newId }
  let duplicate :=
    match base.favorite with
    | some f =>
      match f.name with
      | some n =>
        if n ≠ "" then { base with favorite := some { f with name := some (n ++ " (copy)") } }
        else base
      | none => base
    | none => base
  let (settled, toasts) := saveConnectionInfo saveOk
  match settled with
  | .fulfilled _ =>
    { duplicate := duplicate
      dispatched := [.setConnectionsAndSelect (connections ++ [duplicate]) duplicate]
      toasts := toasts }
  | .rejected _ =>
    { duplicate := duplicate, dispatched := [], toasts := toasts }

/-! ### The `connect` lifecycle as a transition system

`connect` is an async function; its suspension points split it into the atomic
segments below. A call with a plain profile runs from the guard through the
`attempt-connect` dispatch with no intervening await (`connectDirect`); a call
with a supplier creates the attempt handle and then suspends awaiting the
supplier (`connectSupplierBegin` … `connectSupplierResume`). The eventual
settlement of `attempt.connect(...)` is `attemptSucceeded`/`attemptErrored`
(a cancelled attempt resolves `null` and is dropped without dispatch, per the
`isClosed()` re-check), and `cancelAttempt` is `cancelConnectionAttempt()`.
`live` holds the attempt handles created and not yet settled, cancelled or
dropped; `suspended` holds attempts whose supplier await is still pending. -/
structure ConnSys where
  rstate : CState
  isConnected : Bool
  live : List Nat
  suspended : List Nat
  deriving DecidableEq

inductive CEvent where
  | connectDirect (a : Nat) (ci : ConnectionInfo)
  | connectSupplierBegin (a : Nat)
  | connectSupplierResume (a : Nat) (res : Option ConnectionInfo)
  | attemptSucceeded (a : Nat)
  | attemptErrored (a : Nat) (msg : String)
  | cancelAttempt
  deriving DecidableEq

def CEvent.isSupplierBegin : CEvent → Bool
  | .connectSupplierBegin _ => true
  | _ => false

/-- One atomic segment: the successor system state and the actions dispatched
during the segment. -/
def stepOut (s : ConnSys) (e : CEvent) : ConnSys × List CAction :=
  match e with
  | .connectDirect a ci =>
    if s.rstate.connectionAttempt.isSome || s.isConnected then (s, [])
    else
      let act := CAction.attemptConnect a (connectingStatusTextFor ci)
      ({ s with rstate := connectionsReducer s.rstate act, live := s.live ++ [a] }, [act])
  | .connectSupplierBegin a =>
    if s.rstate.connectionAttempt.isSome || s.isConnected then (s, [])
    else ({ s with live := s.live ++ [a], suspended := s.suspended ++ [a] }, [])
  | .connectSupplierResume a res =>
    if a ∈ s.suspended then
      match res with
      | none =>
        ({ s with live := s.live.erase a, suspended := s.suspended.erase a }, [])
      | some ci =>
        let acts := [CAction.setActiveConnection ci,
          CAction.attemptConnect a (connectingStatusTextFor ci)]
        ({ s with
            rstate := acts.foldl connectionsReducer s.rstate
            suspended := s.suspended.erase a }, acts)
    else (s, [])
  | .attemptSucceeded a =>
    if a ∈ s.live then
      ({ s with
          rstate := connectionsReducer s.rstate .connectionAttemptSucceeded
          live := s.live.erase a }, [.connectionAttemptSucceeded])
    else (s, [])
  | .attemptErrored a msg =>
    if a ∈ s.live then
      ({ s with
          rstate := connectionsReducer s.rstate (.connectionAttemptErrored msg)
          live := s.live.erase a }, [.connectionAttemptErrored msg])
    else (s, [])
  | .cancelAttempt =>
    let live :=
      match s.rstate.connectionAttempt with
      | some a => s.live.erase a
      | none => s.live
    ({ s with
        rstate := connectionsReducer s.rstate .cancelConnectionAttempt
        live := live }, [.cancelConnectionAttempt])

def step (s : ConnSys) (e : CEvent) : ConnSys :=
  (stepOut s e).1

def runTrace (s : ConnSys) (evs : List CEvent) : ConnSys :=
  evs.foldl step s

/-- The controller right after mount: default reducer state, nothing in
flight. -/
def initConnSys (newConnectionInfo : ConnectionInfo) : ConnSys where
  rstate := defaultConnectionsState newConnectionInfo
  isConnected := false
  live := []
  suspended := []

/-! ### Atlas sign-in controller -/

inductive SignInStatus where
  | initial
  | restoring
  | unauthenticated
  | inProgress
  | success
  | error
  | canceled
  deriving DecidableEq

/-- `AtlasSignInState`: the serialisable reducer state. -/
structure AtlasSignInState where
  state : SignInStatus
  error : Option String
  isModalOpen : Bool
  currentAttemptId : Option Nat
  deriving DecidableEq

def INITIAL_STATE : AtlasSignInState where
  state := .initial
  error := none
  isModalOpen := false
  currentAttemptId := none

/-- `AtlasSignInActions` with their payloads. -/
inductive SAction where
  | OpenSignInModal
  | CloseSignInModal
  | RestoringStart
  | RestoringFailed
  | RestoringSuccess
  | AttemptStart (id : Nat)
  | AttemptEnd (id : Nat)
  | Start
  | Success
  | Error (error : String)
  | Cancel
  | TokenRefreshFailed
  | SignedOut
  deriving DecidableEq

/-- The Atlas sign-in reducer, translated branch by branch. -/
def atlasSignInReducer (state : AtlasSignInState) (action : SAction) : AtlasSignInState :=
  match action with
  | .RestoringStart => { state with state := .restoring }
  | .RestoringSuccess =>
    if state.state ≠ .restoring then state
    else { state with state := .success, error := none }
  | .RestoringFailed =>
    if state.state ≠ .restoring then state
    else { state with state := .unauthenticated }
  | .AttemptStart id => { state with currentAttemptId := some id }
  | .AttemptEnd _ => { state with currentAttemptId := none }
  | .Start => { state with state := .inProgress }
  | .Success => { state with isModalOpen := false, state := .success, error := none }
  | .Error error => { state with isModalOpen := false, state := .error, error := some error }
  | .Cancel => { INITIAL_STATE with state := .canceled }
  | .OpenSignInModal => { state with isModalOpen := true }
  | .CloseSignInModal => { state with isModalOpen := false }
  | .TokenRefreshFailed =>
    if state.state ≠ .success then state
    else { INITIAL_STATE with state := .error }
  | .SignedOut => INITIAL_STATE

/-- The module-level attempt registry: the `attemptId` counter plus the keys of
`AttemptStateMap` (each entry's abort controller and deferred completion pair
are tracked through the effect lists of the operations below). -/
structure Registry where
  attemptId : Nat
  ids : List Nat
  deriving DecidableEq

/-- JavaScript truthiness of `number | null`: `null` and `0` are falsy. -/
def truthyN : Option Nat → Bool
  | none => false
  | some n => n != 0

/-- `getAttempt(id?)`: a falsy id allocates `++attemptId`, registers it and
returns it; otherwise the id is looked up and a missing entry throws. -/
def getAttempt (reg : Registry) (id? : Option Nat) : Except String (Registry × Nat) :=
  if truthyN id? = false then
    let id := reg.attemptId + 1
    .ok (⟨id, reg.ids ++ [id]⟩, id)
  else
    let id := id?.getD 0
    if id ∈ reg.ids then .ok (reg, id)
    else .error "Trying to get the state for a non-existing sign in attempt"

/-- The callback `startAttempt` defers with `setImmediate`. -/
inductive DeferredFn where
  | openModal
  | runSignIn
  deriving DecidableEq

instance {ε α : Type} [DecidableEq ε] [DecidableEq α] : DecidableEq (Except ε α) := fun x y =>
  match x, y with
  | .ok a, .ok b =>
    if h : a = b then .isTrue (by rw [h]) else .isFalse (by simp [h])
  | .error a, .error b =>
    if h : a = b then .isTrue (by rw [h]) else .isFalse (by simp [h])
  | .ok _, .error _ => .isFalse (by simp)
  | .error _, .ok _ => .isFalse (by simp)

/-- Outcome of the synchronous part of a `signIn`-family thunk: the thrown
fault or the id of the attempt started (`none` when the call was a no-op),
the reducer state and registry after the call, and the deferred callback
scheduled. On a throw, state and registry are those at the throw. -/
structure SignInStep where
  result : Except String (Option Nat)
  state : AtlasSignInState
  registry : Registry
  deferred : Option DeferredFn
  deriving DecidableEq

/-- `startAttempt(fn)`: throws if a current attempt is registered; otherwise
allocates a fresh attempt via `getAttempt()`, dispatches `AttemptStart`, and
schedules `fn`. -/
def startAttempt (fn : DeferredFn) (st : AtlasSignInState) (reg : Registry) : SignInStep :=
  if truthyN st.currentAttemptId then
    ⟨.error "Cant start sign in with prompt while another sign in attempt is in progress",
      st, reg, none⟩
  else
    match getAttempt reg none with
    | .ok (reg2, id) =>
      ⟨.ok (some id), atlasSignInReducer st (.AttemptStart id), reg2, some fn⟩
    | .error e => ⟨.error e, st, reg, none⟩

/-- `signInWithModalPrompt`: no-op when already signed in, else starts an
attempt whose deferred callback opens the sign-in modal. -/
def signInWithModalPrompt (st : AtlasSignInState) (reg : Registry) : SignInStep :=
  if st.state = .success then ⟨.ok none, st, reg, none⟩
  else startAttempt .openModal st reg

/-- `signInWithoutPrompt`: no-op when already signed in, else starts an
attempt whose deferred callback runs `signIn()`. -/
def signInWithoutPrompt (st : AtlasSignInState) (reg : Registry) : SignInStep :=
  if st.state = .success then ⟨.ok none, st, reg, none⟩
  else startAttempt .runSignIn st reg

/-- The reason an `AbortController.abort()` with no argument records on its
signal. -/
def abortDefaultReason : String := "AbortError: signal is aborted without reason"

/-- Outcome of `cancelSignIn(reason?)`: thrown fault if any, the reducer state
after the call, the registry, the attempt ids whose controllers were aborted,
and the (id, reason) pairs rejected on completion handles. -/
structure CancelStep where
  result : Except String Unit
  state : AtlasSignInState
  registry : Registry
  abortedIds : List Nat
  rejectedWith : List (Nat × String)
  deriving DecidableEq

/-- `cancelSignIn(reason?)`: no-op when `currentAttemptId === null`; otherwise
looks the attempt up, aborts its controller, rejects its completion handle
with `reason ?? signal.reason`, and dispatches `Cancel`. -/
def cancelSignIn (st : AtlasSignInState) (reg : Registry) (reason : Option String) : CancelStep :=
  if st.currentAttemptId = none then ⟨.ok (), st, reg, [], []⟩
  else
    match getAttempt reg st.currentAttemptId with
    | .error e => ⟨.error e, st, reg, [], []⟩
    | .ok (reg2, id) =>
      ⟨.ok (), atlasSignInReducer st .Cancel, reg2, [id],
        [(id, reason.getD abortDefaultReason)]⟩

/-- `tokenRefreshFailed()`: dispatches the reducer action and re-emits the
`token-refresh-failed` event on the service. -/
def tokenRefreshFailed (st : AtlasSignInState) : AtlasSignInState × List String :=
  (atlasSignInReducer st .TokenRefreshFailed, ["token-refresh-failed"])

/-! ### Concrete values used in witnesses and counterexamples -/

def localhostConnStr : ConnStr := ⟨"mongodb://localhost:27017", []⟩

def blankInfo : ConnectionInfo :=
  ⟨"id-blank", ⟨localhostConnStr⟩, none, none⟩

/-! ### Claim theorems -/

/-- C9: `tokenRefreshFailed()` leaves the sign-in record unchanged whenever the
current state is not `success`; when it is `success`, the record is reset to
the initial values with the state field set to `error`. -/
theorem tokenRefreshFailed_only_resets_success (st : AtlasSignInState) :
    (st.state ≠ SignInStatus.success → (tokenRefreshFailed st).1 = st) ∧
    (st.state = SignInStatus.success →
      (tokenRefreshFailed st).1 = { INITIAL_STATE with state := .error }) := by
  constructor
  · intro h
    simp [tokenRefreshFailed, atlasSignInReducer, h]
  · intro h
    simp [tokenRefreshFailed, atlasSignInReducer, h]

theorem tokenRefreshFailed_only_resets_success_witness :
    (tokenRefreshFailed ⟨.inProgress, none, true, some 1⟩).1 = ⟨.inProgress, none, true, some 1⟩ ∧
    (tokenRefreshFailed ⟨.success, none, false, none⟩).1 = { INITIAL_STATE with state := .error } :=
  ⟨(tokenRefreshFailed_only_resets_success ⟨.inProgress, none, true, some 1⟩).1 (by decide),
   (tokenRefreshFailed_only_resets_success ⟨.success, none, false, none⟩).2 rfl⟩

/-- C2: starting a second sign-in attempt through `signInWithModalPrompt` or
`signInWithoutPrompt` (when not already in the `success` state) while
`currentAttemptId` is set throws to the caller, leaves the reducer state and
the attempt registry untouched (no new attempt is registered), and schedules
nothing. -/
theorem second_sign_in_attempt_throws (st : AtlasSignInState) (reg : Registry)
    (h1 : st.state ≠ SignInStatus.success) (h2 : truthyN st.currentAttemptId = true) :
    signInWithModalPrompt st reg =
      ⟨.error "Cant start sign in with prompt while another sign in attempt is in progress",
        st, reg, none⟩ ∧
    signInWithoutPrompt st reg =
      ⟨.error "Cant start sign in with prompt while another sign in attempt is in progress",
        st, reg, none⟩ := by
  constructor <;>
    simp [signInWithModalPrompt, signInWithoutPrompt, startAttempt, h1, h2]

theorem second_sign_in_attempt_throws_witness :
    signInWithModalPrompt ⟨.inProgress, none, true, some 1⟩ ⟨1, [1]⟩ =
      ⟨.error "Cant start sign in with prompt while another sign in attempt is in progress",
        ⟨.inProgress, none, true, some 1⟩, ⟨1, [1]⟩, none⟩ :=
  (second_sign_in_attempt_throws ⟨.inProgress, none, true, some 1⟩ ⟨1, [1]⟩
    (by decide) (by decide)).1

/-- C8: `cancelSignIn()` is a no-op when `currentAttemptId` is null; otherwise
it aborts the current attempt controller, rejects the attempt completion handle
with the abort reason, and transitions the record to exactly the `canceled`
state with `currentAttemptId` and `error` cleared and the modal closed. -/
theorem cancelSignIn_spec (st : AtlasSignInState) (reg : Registry) (reason : Option String) :
    (st.currentAttemptId = none → cancelSignIn st reg reason = ⟨.ok (), st, reg, [], []⟩) ∧
    (∀ id, st.currentAttemptId = some id → id ≠ 0 → id ∈ reg.ids →
      cancelSignIn st reg reason =
        ⟨.ok (), ⟨.canceled, none, false, none⟩, reg, [id],
          [(id, reason.getD abortDefaultReason)]⟩) := by
  constructor
  · intro h
    simp [cancelSignIn, h]
  · intro id h h0 hmem
    simp [cancelSignIn, h, getAttempt, truthyN, h0, hmem, atlasSignInReducer, INITIAL_STATE]

theorem cancelSignIn_spec_witness :
    cancelSignIn ⟨.inProgress, none, true, some 1⟩ ⟨1, [1]⟩ none =
      ⟨.ok (), ⟨.canceled, none, false, none⟩, ⟨1, [1]⟩, [1], [(1, abortDefaultReason)]⟩ :=
  (cancelSignIn_spec ⟨.inProgress, none, true, some 1⟩ ⟨1, [1]⟩ none).2 1 rfl
    (by decide) (by decide)

/-- The invariant of C10: a non-null in-flight `connectionAttempt` excludes a
connection error message. -/
def connInv (s : CState) : Prop :=
  s.connectionAttempt.isSome = true → s.connectionErrorMessage = none

/-- C10: every `connectionsReducer` action preserves the invariant that a
non-null `connectionAttempt` implies a null `connectionErrorMessage`, and every
state reachable from the default state by any action sequence satisfies it. -/
theorem connectionsReducer_attempt_excludes_error :
    (∀ (s : CState) (a : CAction), connInv s → connInv (connectionsReducer s a)) ∧
    (∀ (newConnectionInfo : ConnectionInfo) (acts : List CAction),
      connInv (acts.foldl connectionsReducer (defaultConnectionsState newConnectionInfo))) := by
  have pres : ∀ (s : CState) (a : CAction), connInv s → connInv (connectionsReducer s a) := by
    intro s a h
    cases a <;> intro hsome <;>
      first
        | rfl
        | exact h hsome
        | exact absurd hsome (by simp [connectionsReducer])
  refine ⟨pres, fun newConnectionInfo acts => ?_⟩
  have run : ∀ (acts : List CAction) (s : CState), connInv s →
      connInv (acts.foldl connectionsReducer s) := by
    intro acts
    induction acts with
    | nil => intro s h; exact h
    | cons a as ih => intro s h; exact ih _ (pres s a h)
  refine run acts _ ?_
  intro hsome
  simp [defaultConnectionsState] at hsome

theorem connectionsReducer_attempt_excludes_error_witness :
    connInv (connectionsReducer
      ⟨none, blankInfo, "", some 5, none, [], none, none⟩ (.setConnections [])) :=
  connectionsReducer_attempt_excludes_error.1
    ⟨none, blankInfo, "", some 5, none, [], none, none⟩ (.setConnections [])
    (fun _ => rfl)

/-- C4: after a successful connect of a profile whose id is already in storage
(`load` returned `stored`), the profile handed to `save` is the stored profile
with only `lastUsed` replaced by the current time; id, connection options and
favorite come from the stored profile, not from the incoming one. -/
theorem connect_success_merges_only_lastUsed (stored incoming : ConnectionInfo)
    (now : Nat) (recents : List ConnectionInfo) :
    ∃ saved,
      (onConnectSuccess (some stored) incoming true now recents).head? =
        some (StorageOp.save saved) ∧
      saved.lastUsed = some now ∧
      saved.id = stored.id ∧
      saved.connectionOptions = stored.connectionOptions ∧
      saved.favorite = stored.favorite := by
  exact ⟨{ stored with lastUsed := some now }, by simp [onConnectSuccess], rfl, rfl, rfl, rfl⟩

/-- Three concrete recent profiles for the C6 example: `lastUsed` of `[t3,
absent, t1]` with `t3 > t1 > 0`. -/
def p3 : ConnectionInfo := ⟨"c3", ⟨localhostConnStr⟩, none, some 300⟩

def pAbsent : ConnectionInfo := ⟨"cA", ⟨localhostConnStr⟩, none, none⟩

def p1 : ConnectionInfo := ⟨"c1", ⟨localhostConnStr⟩, none, some 100⟩

/-- C6: `recentConnections` is exactly the non-favorite profiles, stably
sorted by `lastUsed` descending with a missing timestamp treated as epoch
zero; on profiles with `lastUsed` of `[t3, absent, t1]` it yields
`[t3, t1, absent]`. -/
theorem recentConnections_sorted_desc :
    (∀ connections : List ConnectionInfo,
      (recentConnections connections).Perm
          (connections.filter (fun c => c.favorite.isNone)) ∧
      (recentConnections connections).Pairwise
          (fun a b => lastUsedTime b ≤ lastUsedTime a)) ∧
    recentConnections [p3, pAbsent, p1] = [p3, p1, pAbsent] := by
  refine ⟨fun connections => ⟨List.perm_insertionSort _ _, ?_⟩, by decide⟩
  exact List.sorted_insertionSort recentBefore
    (connections.filter (fun c => c.favorite.isNone))

theorem mem_of_getLast?_some {α : Type} :
    ∀ {l : List α} {a : α}, l.getLast? = some a → a ∈ l := by
  intro l
  induction l with
  | nil => intro a h; cases h
  | cons x t ih =>
    intro a h
    cases t with
    | nil =>
      have : x = a := by simpa using h
      simp [this]
    | cons y t2 =>
      rw [List.getLast?_cons_cons] at h
      exact List.mem_cons_of_mem _ (ih h)

/-- In a list sorted by `lastUsed` descending, the last element has the least
`lastUsed` value. -/
theorem pairwise_getLast?_min :
    ∀ (l : List ConnectionInfo), l.Pairwise recentBefore →
      ∀ oldest, l.getLast? = some oldest →
        ∀ x ∈ l, lastUsedTime oldest ≤ lastUsedTime x := by
  intro l
  induction l with
  | nil => intro _ oldest h; cases h
  | cons a t ih =>
    intro hp oldest h x hx
    rcases List.pairwise_cons.mp hp with ⟨ha, ht⟩
    cases t with
    | nil =>
      have hoa : a = oldest := by simpa using h
      have hxa : x = a := by simpa using hx
      subst hoa
      subst hxa
      exact Nat.le_refl _
    | cons b t2 =>
      have h2 : (b :: t2).getLast? = some oldest := by
        rw [List.getLast?_cons_cons] at h
        exact h
      rcases List.mem_cons.mp hx with rfl | hx2
      · exact ha oldest (mem_of_getLast?_some h2)
      · exact ih ht oldest h2 x hx2

/-- C5: after a successful connect saves a profile that was un-favorited and
had no prior `lastUsed`, if the recents count already meets the cap of 10 then
exactly the single oldest recent (the one with least `lastUsed`) is deleted;
in every other case (favorited, already recent, or below the cap) no profile
is deleted. -/
theorem recents_eviction_at_cap (stored : Option ConnectionInfo) (incoming : ConnectionInfo)
    (now : Nat) (connections : List ConnectionInfo) :
    ((stored.getD incoming).favorite = none → (stored.getD incoming).lastUsed = none →
      MAX_RECENT_CONNECTIONS_LENGTH ≤ (recentConnections connections).length →
      ∃ oldest,
        (recentConnections connections).getLast? = some oldest ∧
        deletesOf (onConnectSuccess stored incoming true now
          (recentConnections connections)) = [oldest] ∧
        ∀ x ∈ recentConnections connections, lastUsedTime oldest ≤ lastUsedTime x) ∧
    (((stored.getD incoming).favorite ≠ none ∨ (stored.getD incoming).lastUsed ≠ none ∨
        (recentConnections connections).length < MAX_RECENT_CONNECTIONS_LENGTH) →
      deletesOf (onConnectSuccess stored incoming true now
        (recentConnections connections)) = []) := by
  constructor
  · intro hfav hlast hlen
    have hne : recentConnections connections ≠ [] := by
      intro hnil
      rw [hnil] at hlen
      exact absurd hlen (by decide)
    obtain ⟨oldest, holdest⟩ :
        ∃ oldest, (recentConnections connections).getLast? = some oldest := by
      cases hl : (recentConnections connections).getLast? with
      | none => exact absurd (List.getLast?_eq_none_iff.mp hl) hne
      | some o => exact ⟨o, rfl⟩
    refine ⟨oldest, holdest, ?_, ?_⟩
    · simp [onConnectSuccess, deletesOf, hfav, hlast, hlen, holdest]
    · exact pairwise_getLast?_min (recentConnections connections)
        (List.sorted_insertionSort recentBefore _) oldest holdest
  · intro hcase
    rcases hcase with hfav | hlast | hlen
    · have : (stored.getD incoming).favorite.isNone = false := by
        cases hf : (stored.getD incoming).favorite with
        | none => exact absurd hf hfav
        | some _ => rfl
      simp [onConnectSuccess, deletesOf, this]
    · have : (stored.getD incoming).lastUsed.isNone = false := by
        cases hf : (stored.getD incoming).lastUsed with
        | none => exact absurd hf hlast
        | some _ => rfl
      simp [onConnectSuccess, deletesOf, this]
    · have : ¬ MAX_RECENT_CONNECTIONS_LENGTH ≤ (recentConnections connections).length :=
        Nat.not_le_of_lt hlen
      simp [onConnectSuccess, deletesOf, this]

/-- A non-favorite profile with no prior `lastUsed`, used in the C5 witness. -/
def recProfile (i : Nat) : ConnectionInfo :=
  ⟨"r" ++ toString i, ⟨localhostConnStr⟩, none, some (i + 1)⟩

def tenRecents : List ConnectionInfo := (List.range 10).map recProfile

theorem recents_eviction_at_cap_witness :
    ∃ oldest,
      (recentConnections tenRecents).getLast? = some oldest ∧
      deletesOf (onConnectSuccess none blankInfo true 1000
        (recentConnections tenRecents)) = [oldest] ∧
      ∀ x ∈ recentConnections tenRecents, lastUsedTime oldest ≤ lastUsedTime x :=
  (recents_eviction_at_cap none blankInfo 1000 tenRecents).1 rfl rfl (by decide)

/-- A favorite profile named "X", duplicated in the C7 evaluation. -/
def favX : ConnectionInfo := ⟨"x-id", ⟨localhostConnStr⟩, some ⟨some "X"⟩, none⟩

/-- The duplicate `duplicateConnection "dup-id" _ favX _` builds. -/
def favXCopy : ConnectionInfo := ⟨"dup-id", ⟨localhostConnStr⟩, some ⟨some "X (copy)"⟩, none⟩

/-- C7, evaluated at the failing input: duplicating favorite "X" when the
storage save fails. `saveConnectionInfo` catches the failure and fulfills with
`false` (it never rejects), so the fulfilled-branch of
`saveConnectionInfo(duplicate).then(select, noop)` still runs: the duplicate
(with its fresh id and " (copy)" name) is added to the collection and selected
as active, and the save helper has already surfaced a warning toast — the
duplicate is neither dropped nor silent, contrary to the claim and to the
code's own comment on the rejection handler. -/
theorem duplicate_persist_failure_still_selected :
    (duplicateConnection "dup-id" [] favX false).duplicate = favXCopy ∧
    favXCopy.id ≠ favX.id ∧
    (duplicateConnection "dup-id" [] favX false).dispatched =
      [.setConnectionsAndSelect [favXCopy] favXCopy] ∧
    (duplicateConnection "dup-id" [] favX false).toasts = ["save-connection-error"] := by
  refine ⟨by decide, by decide, by decide, by decide⟩

/-- C3 counterexample: a (non-OIDC) profile whose favorite display name is the
browser-authentication hint itself. -/
def oidcTrapInfo : ConnectionInfo :=
  ⟨"trap-id", ⟨localhostConnStr⟩,
    some ⟨some ". Go to the browser to complete authentication."⟩, none⟩

/-- C3 fails as stated: for this profile the connection string has no
`authMechanism=MONGODB-OIDC`, yet the status text dispatched with
`attempt-connect` contains the browser-authentication hint, because the
connection title itself contains it. -/
theorem oidc_hint_without_oidc :
    isOIDCAuth oidcTrapInfo.connectionOptions.connectionString = false ∧
    (stepOut (initConnSys oidcTrapInfo) (.connectDirect 1 oidcTrapInfo)).2 =
      [.attemptConnect 1 (connectingStatusTextFor oidcTrapInfo)] ∧
    strContains (connectingStatusTextFor oidcTrapInfo) oidcAuthHint = true := by
  refine ⟨by decide, by decide, by decide⟩

/-- C3 (amended): the status text appends the hint exactly when the
`authMechanism` query parameter upper-cases to `MONGODB-OIDC`; it therefore
contains the hint whenever the profile is OIDC and, provided the connection
title does not itself contain the hint, only then. -/
theorem oidc_hint_appended_iff (ci : ConnectionInfo) :
    (isOIDCAuth ci.connectionOptions.connectionString = true →
      strContains (connectingStatusTextFor ci) oidcAuthHint = true) ∧
    (isOIDCAuth ci.connectionOptions.connectionString = false →
      connectingStatusTextFor ci = "Connecting to " ++ getConnectionTitle ci) ∧
    (strContains ("Connecting to " ++ getConnectionTitle ci) oidcAuthHint = false →
      (strContains (connectingStatusTextFor ci) oidcAuthHint = true ↔
        isOIDCAuth ci.connectionOptions.connectionString = true)) := by
  have htrue : isOIDCAuth ci.connectionOptions.connectionString = true →
      strContains (connectingStatusTextFor ci) oidcAuthHint = true := by
    intro h
    have hform : connectingStatusTextFor ci =
        ("Connecting to " ++ getConnectionTitle ci) ++ oidcAuthHint := by
      simp [connectingStatusTextFor, h]
    rw [hform]
    exact strContains_append_self _ _
  have hfalse : isOIDCAuth ci.connectionOptions.connectionString = false →
      connectingStatusTextFor ci = "Connecting to " ++ getConnectionTitle ci := by
    intro h
    simp [connectingStatusTextFor, h]
  refine ⟨htrue, hfalse, ?_⟩
  intro h
  cases hoidc : isOIDCAuth ci.connectionOptions.connectionString with
  | false =>
    rw [hfalse hoidc, h]
  | true =>
    simp [htrue hoidc]

/-- A profile whose connection string carries `authMechanism=MONGODB-OIDC`. -/
def oidcInfo : ConnectionInfo :=
  ⟨"oidc-id",
    ⟨⟨"mongodb://localhost:27017/?authMechanism=MONGODB-OIDC",
      [("authMechanism", "MONGODB-OIDC")]⟩⟩, none, none⟩

theorem oidc_hint_appended_iff_witness :
    strContains (connectingStatusTextFor oidcInfo) oidcAuthHint = true :=
  (oidc_hint_appended_iff oidcInfo).1 (by decide)

/-- The C1 invariant for traces of non-overlapping (direct-profile) connect
calls: nothing is suspended awaiting a supplier, and when an attempt is live
it is exactly the one recorded in the reducer state. -/
def C1Inv (s : ConnSys) : Prop :=
  s.suspended = [] ∧
  (s.live = [] ∨ ∃ a, s.live = [a] ∧ s.rstate.connectionAttempt = some a)

theorem C1Inv_step (s : ConnSys) (e : CEvent) (h : C1Inv s)
    (he : e.isSupplierBegin = false) : C1Inv (step s e) := by
  obtain ⟨hsusp, hlive⟩ := h
  cases e with
  | connectDirect a ci =>
    cases hg : s.rstate.connectionAttempt.isSome || s.isConnected with
    | true =>
      have hstep : step s (.connectDirect a ci) = s := by
        simp [step, stepOut, hg]
      rw [hstep]
      exact ⟨hsusp, hlive⟩
    | false =>
      have hatt : s.rstate.connectionAttempt = none := by
        cases ho : s.rstate.connectionAttempt with
        | none => rfl
        | some x => rw [ho] at hg; simp at hg
      rcases hlive with hnil | ⟨x, _, hax⟩
      · have hstep : step s (.connectDirect a ci) =
            { s with
              rstate := connectionsReducer s.rstate
                (.attemptConnect a (connectingStatusTextFor ci))
              live := s.live ++ [a] } := by
          simp [step, stepOut, hg]
        rw [hstep]
        refine ⟨hsusp, Or.inr ⟨a, ?_, rfl⟩⟩
        show s.live ++ [a] = [a]
        rw [hnil]
        rfl
      · rw [hatt] at hax
        cases hax
  | connectSupplierBegin a =>
    cases he
  | connectSupplierResume a res =>
    have hnm : ¬ a ∈ s.suspended := by rw [hsusp]; simp
    have hstep : step s (.connectSupplierResume a res) = s := by
      cases res <;> simp [step, stepOut, hnm]
    rw [hstep]
    exact ⟨hsusp, hlive⟩
  | attemptSucceeded a =>
    rcases hlive with hnil | ⟨x, hx, hax⟩
    · have hnm : ¬ a ∈ s.live := by rw [hnil]; simp
      have hstep : step s (.attemptSucceeded a) = s := by
        simp [step, stepOut, hnm]
      rw [hstep]
      exact ⟨hsusp, Or.inl hnil⟩
    · by_cases hax2 : a = x
      · subst hax2
        have hmem : a ∈ s.live := by rw [hx]; exact List.mem_singleton_self a
        have hstep : step s (.attemptSucceeded a) =
            { s with
              rstate := connectionsReducer s.rstate .connectionAttemptSucceeded
              live := s.live.erase a } := by
          simp [step, stepOut, hmem]
        rw [hstep]
        refine ⟨hsusp, Or.inl ?_⟩
        show s.live.erase a = []
        rw [hx]
        simp
      · have hnm : ¬ a ∈ s.live := by
          rw [hx]
          simp [hax2]
        have hstep : step s (.attemptSucceeded a) = s := by
          simp [step, stepOut, hnm]
        rw [hstep]
        exact ⟨hsusp, Or.inr ⟨x, hx, hax⟩⟩
  | attemptErrored a msg =>
    rcases hlive with hnil | ⟨x, hx, hax⟩
    · have hnm : ¬ a ∈ s.live := by rw [hnil]; simp
      have hstep : step s (.attemptErrored a msg) = s := by
        simp [step, stepOut, hnm]
      rw [hstep]
      exact ⟨hsusp, Or.inl hnil⟩
    · by_cases hax2 : a = x
      · subst hax2
        have hmem : a ∈ s.live := by rw [hx]; exact List.mem_singleton_self a
        have hstep : step s (.attemptErrored a msg) =
            { s with
              rstate := connectionsReducer s.rstate (.connectionAttemptErrored msg)
              live := s.live.erase a } := by
          simp [step, stepOut, hmem]
        rw [hstep]
        refine ⟨hsusp, Or.inl ?_⟩
        show s.live.erase a = []
        rw [hx]
        simp
      · have hnm : ¬ a ∈ s.live := by
          rw [hx]
          simp [hax2]
        have hstep : step s (.attemptErrored a msg) = s := by
          simp [step, stepOut, hnm]
        rw [hstep]
        exact ⟨hsusp, Or.inr ⟨x, hx, hax⟩⟩
  | cancelAttempt =>
    cases hatt : s.rstate.connectionAttempt with
    | none =>
      have hstep : step s .cancelAttempt =
          { s with rstate := connectionsReducer s.rstate .cancelConnectionAttempt } := by
        simp [step, stepOut, hatt]
      rw [hstep]
      rcases hlive with hnil | ⟨x, _, hax⟩
      · exact ⟨hsusp, Or.inl hnil⟩
      · rw [hatt] at hax
        cases hax
    | some y =>
      have hstep : step s .cancelAttempt =
          { s with
            rstate := connectionsReducer s.rstate .cancelConnectionAttempt
            live := s.live.erase y } := by
        simp [step, stepOut, hatt]
      rw [hstep]
      rcases hlive with hnil | ⟨x, hx, hax⟩
      · refine ⟨hsusp, Or.inl ?_⟩
        show s.live.erase y = []
        rw [hnil]
        rfl
      · have hxy : y = x := by
          rw [hatt] at hax
          cases hax
          rfl
        subst hxy
        refine ⟨hsusp, Or.inl ?_⟩
        show s.live.erase y = []
        rw [hx]
        simp

/-- C1 (amended): a connect() call beginning while an attempt is recorded
in-flight or the system is connected dispatches nothing and creates no attempt
handle, for both the direct-profile and the supplier form; consequently, along
any trace of connect lifecycle events that contains no supplier-form call
beginning (i.e. all connect() calls run from guard to `attempt-connect`
dispatch without interleaving), at most one connection attempt is outstanding
at any instant. -/
theorem connect_guard_and_single_attempt :
    (∀ (s : ConnSys) (a : Nat) (ci : ConnectionInfo),
      s.rstate.connectionAttempt ≠ none ∨ s.isConnected = true →
      stepOut s (.connectDirect a ci) = (s, []) ∧
      stepOut s (.connectSupplierBegin a) = (s, [])) ∧
    (∀ (newConnectionInfo : ConnectionInfo) (evs : List CEvent),
      (∀ e ∈ evs, e.isSupplierBegin = false) →
      (runTrace (initConnSys newConnectionInfo) evs).live.length ≤ 1) := by
  constructor
  · intro s a ci hg
    have hb : (s.rstate.connectionAttempt.isSome || s.isConnected) = true := by
      rcases hg with h1 | h2
      · cases ho : s.rstate.connectionAttempt with
        | none => exact absurd ho h1
        | some x => simp [ho]
      · simp [h2]
    constructor <;> simp [stepOut, hb]
  · intro newConnectionInfo evs hall
    have hrun : ∀ (evs : List CEvent) (s : ConnSys), C1Inv s →
        (∀ e ∈ evs, e.isSupplierBegin = false) → C1Inv (runTrace s evs) := by
      intro evs
      induction evs with
      | nil => intro s h _; exact h
      | cons e es ih =>
        intro s h hall2
        exact ih _ (C1Inv_step s e h (hall2 e (List.mem_cons_self e es)))
          (fun e2 he2 => hall2 e2 (List.mem_cons_of_mem e he2))
    have hinv : C1Inv (runTrace (initConnSys newConnectionInfo) evs) :=
      hrun evs _ ⟨rfl, Or.inl rfl⟩ hall
    rcases hinv.2 with hnil | ⟨a, ha, _⟩
    · rw [hnil]; exact Nat.zero_le 1
    · rw [ha]; exact Nat.le_refl 1

theorem connect_guard_and_single_attempt_witness :
    stepOut ⟨⟨none, blankInfo, "", some 1, none, [], none, none⟩, false, [1], []⟩
        (.connectDirect 2 blankInfo) =
      (⟨⟨none, blankInfo, "", some 1, none, [], none, none⟩, false, [1], []⟩, []) ∧
    (runTrace (initConnSys blankInfo)
      [.connectDirect 1 blankInfo, .attemptSucceeded 1,
       .connectDirect 2 blankInfo]).live.length ≤ 1 :=
  ⟨(connect_guard_and_single_attempt.1
      ⟨⟨none, blankInfo, "", some 1, none, [], none, none⟩, false, [1], []⟩ 2 blankInfo
      (Or.inl (by decide))).1,
   connect_guard_and_single_attempt.2 blankInfo
     [.connectDirect 1 blankInfo, .attemptSucceeded 1, .connectDirect 2 blankInfo]
     (by decide)⟩

/-- C1 fails as stated for interleaved supplier-form connect() calls: both
calls pass the guard before either dispatches `attempt-connect` (the attempt
handle is created before the supplier await, the reducer state is only updated
at the dispatch), so after both resume, two connection attempts are
outstanding at the same instant. -/
theorem connect_overlapping_suppliers_two_attempts :
    ¬ ((runTrace (initConnSys blankInfo)
        [.connectSupplierBegin 1, .connectSupplierBegin 2,
         .connectSupplierResume 1 (some blankInfo),
         .connectSupplierResume 2 (some blankInfo)]).live.length ≤ 1) := by
  decide

end Compass

